import Mathlib

/-!
Shallow embedding of the truck-parking facility service
(`truck-parking-map`): the facilities query route, the NDW DATEX-II
parking-table / parking-status route, and the Zenodo CSV route, together
with theorems checking the specification's claims against them.

Modelling conventions, used throughout:
* JavaScript strings are Lean `String`s; the string operations the code
  uses (`trim`, `split`, `toLowerCase`, `includes`, the `||` default on
  falsy values) are defined below on the character list so that concrete
  inputs evaluate inside the kernel.
* JavaScript numbers that carry whole-number space counts are modelled as
  `Int`; coordinate and area values (decimal literals parsed from the
  feeds) are modelled as exact decimals `Decimal` (mantissa and a
  power-of-ten denominator), with comparisons bridged to `ℚ`.
  Float rounding and `NaN` arithmetic are outside the model; an
  unparseable numeric node is `none` where the code would see
  `undefined`/`NaN`.
* The dynamic XML payloads are modelled at the point after the
  `extractText`/`extractNumber` helpers have run: a record structure has
  an `Option` field for each node the route reads, `none` standing for a
  missing or unreadable node.
-/

set_option maxHeartbeats 1000000

/-- An exact decimal number `m / 10 ^ e`, the model of a JavaScript
number parsed from a decimal literal in a feed (coordinates, areas). -/
structure Decimal where
  m : Int
  e : Nat
deriving DecidableEq

/-- The rational value of a `Decimal`. -/
def Decimal.toRat (a : Decimal) : ℚ := (a.m : ℚ) / 10 ^ a.e

/-- Comparison `a <= b` on decimal values, by cross-multiplication. -/
def Decimal.dle (a b : Decimal) : Bool := decide (a.m * 10 ^ b.e ≤ b.m * 10 ^ a.e)

/-- The decimal with integer value `n`. -/
def Decimal.ofInt (n : Int) : Decimal := ⟨n, 0⟩

/-- JS `x || d` for an optional string: `undefined`/`null` and `""` are falsy. -/
def jsOrStr (x : Option String) (d : String) : String :=
  match x with
  | none => d
  | some s => if s = "" then d else s

/-- JS `x || d` for an optional integer number: `undefined` and `0` are falsy. -/
def jsOrInt (x : Option Int) (d : Int) : Int :=
  match x with
  | none => d
  | some v => if v = 0 then d else v

/-- JS `x || d` for an optional decimal number: `undefined` and a zero value
are falsy. -/
def jsOrDec (x : Option Decimal) (d : Decimal) : Decimal :=
  match x with
  | none => d
  | some v => if v.m = 0 then d else v

/-- Does the character list start with `needle`? -/
def startsWithChars : List Char → List Char → Bool
  | [], _ => true
  | _ :: _, [] => false
  | a :: as, b :: bs => a == b && startsWithChars as bs

/-- Does the character list contain `needle` as a contiguous run? -/
def charsContain (needle : List Char) : List Char → Bool
  | [] => needle.isEmpty
  | c :: rest => startsWithChars needle (c :: rest) || charsContain needle rest

/-- JS `String.prototype.includes`: substring containment. -/
def strIncludes (s sub : String) : Bool := charsContain sub.toList s.toList

/-- JS `String.prototype.toLowerCase` (ASCII range, as used by the routes). -/
def strToLower (s : String) : String := String.mk (s.toList.map Char.toLower)

/-- JS `String.prototype.trim`. -/
def strTrim (s : String) : String :=
  String.mk (((s.toList.dropWhile Char.isWhitespace).reverse.dropWhile Char.isWhitespace).reverse)

/-- JS `String.prototype.split` with a single-character separator. -/
def strSplitOnChar (sep : Char) (s : String) : List String :=
  (List.splitOn sep s.toList).map String.mk

/-- JS `Array.prototype.slice(start, stop)`, with clamping and
negative-index wrap-around. -/
def jsSlice {α : Type} (l : List α) (start stop : Int) : List α :=
  let n : Int := l.length
  let s := if start < 0 then max (n + start) 0 else min start n
  let e := if stop < 0 then max (n + stop) 0 else min stop n
  (l.take e.toNat).drop s.toNat

namespace FacilitiesRoute

/-! Embedding of `app/api/facilities/route.ts`: the enriched-feature data
model, the `facility_type` derivation of `loadAndTransformData`, and the
filter / paginate / stats pipeline of the `GET` handler. -/

/-- The `classification` sub-object of an enriched feature. -/
structure Classification where
  is_truck_parking : Bool
  is_rest_area : Bool
  is_service_area : Bool
deriving DecidableEq

/-- The optional `location` sub-object, restricted to the fields the
route reads (search matching). -/
structure LocationInfo where
  municipality : Option String
  province : Option String
  highway : Option String
deriving DecidableEq

/-- An enriched feature, restricted to the fields the route reads:
`name`, the coordinate pair, the `location` sub-object used by search,
the classification flags, and the (initially absent) `facility_type`. -/
structure EnrichedFeature where
  name : String
  latitude : Decimal
  longitude : Decimal
  location : Option LocationInfo
  classification : Classification
  facility_type : Option String
deriving DecidableEq

/-- The `facility_type` assignment inside `loadAndTransformData`:
`"rest_area"` by default, then the three classification branches in
source order. -/
def deriveFacilityType (c : Classification) : String :=
  if c.is_truck_parking then "truck_parking"
  else if c.is_service_area then "service_area"
  else if c.is_rest_area then "rest_area"
  else "rest_area"

/-- The per-feature transform of `loadAndTransformData`: spread the
feature and set `facility_type`. -/
def transformFeature (f : EnrichedFeature) : EnrichedFeature :=
  { f with facility_type := some (deriveFacilityType f.classification) }

/-- `loadAndTransformData` after the file read: map the transform over the
raw array. -/
def loadAndTransformData (raw : List EnrichedFeature) : List EnrichedFeature :=
  raw.map transformFeature

/-- The parsed viewport bounds `"minLat,minLng,maxLat,maxLng"`. -/
structure Bounds where
  minLat : Decimal
  minLng : Decimal
  maxLat : Decimal
  maxLng : Decimal
deriving DecidableEq

/-- The `GET` handler's query parameters, after URL decoding:
`bounds` as the parsed quadruple, `types` and `search` as the raw
(possibly absent) parameter strings, `limit` and `offset` as the
`parseInt` results. -/
structure QueryParams where
  bounds : Option Bounds
  typesParam : Option String
  searchParam : Option String
  limit : Int
  offset : Int
deriving DecidableEq

/-- `searchParams.get('types')?.split(',') || [defaults]`. -/
def typesOf (p : QueryParams) : List String :=
  match p.typesParam with
  | some s => strSplitOnChar ',' s
  | none => ["truck_parking", "service_area", "rest_area"]

/-- `searchParams.get('search')?.toLowerCase() || ''`. -/
def searchOf (p : QueryParams) : String :=
  jsOrStr (p.searchParam.map strToLower) ""

/-- One disjunct of the search filter: optional-chained field,
lower-cased, substring-matched. -/
def optIncludesLower (o : Option String) (search : String) : Bool :=
  match o with
  | some s => strIncludes (strToLower s) search
  | none => false

/-- The search-filter predicate over name, municipality, province and
highway. -/
def searchMatches (search : String) (f : EnrichedFeature) : Bool :=
  strIncludes (strToLower f.name) search
    || optIncludesLower (f.location.bind (fun l => l.municipality)) search
    || optIncludesLower (f.location.bind (fun l => l.province)) search
    || optIncludesLower (f.location.bind (fun l => l.highway)) search

/-- The three data filters of the handler, in source order: viewport
bounds (when given), facility type, search term (when non-empty). -/
def filteredData (data0 : List EnrichedFeature) (p : QueryParams) : List EnrichedFeature :=
  let data1 : List EnrichedFeature :=
    match p.bounds with
    | some b =>
        data0.filter (fun f =>
          Decimal.dle b.minLat f.latitude && Decimal.dle f.latitude b.maxLat &&
            Decimal.dle b.minLng f.longitude && Decimal.dle f.longitude b.maxLng)
    | none => data0
  let data2 := data1.filter (fun f => (typesOf p).contains (jsOrStr f.facility_type "rest_area"))
  if searchOf p = "" then data2 else data2.filter (fun f => searchMatches (searchOf p) f)

/-- The per-type counts computed over the filtered data. -/
structure Stats where
  total : Nat
  truck_parking : Nat
  service_area : Nat
  rest_area : Nat
deriving DecidableEq

/-- The JSON body of a successful response. -/
structure QueryResponse where
  facilities : List EnrichedFeature
  stats : Stats
  total : Nat
  offset : Int
  limit : Int
deriving DecidableEq

/-- The success path of the `GET` handler after data loading: filter,
take `total`, paginate with `slice(offset, offset + limit)`, compute
stats over the filtered data. -/
def runQuery (data0 : List EnrichedFeature) (p : QueryParams) : QueryResponse :=
  let data3 := filteredData data0 p
  { facilities := jsSlice data3 p.offset (p.offset + p.limit)
    stats :=
      { total := data3.length
        truck_parking := (data3.filter (fun f => f.facility_type == some "truck_parking")).length
        service_area := (data3.filter (fun f => f.facility_type == some "service_area")).length
        rest_area := (data3.filter (fun f => f.facility_type == some "rest_area")).length }
    total := data3.length
    offset := p.offset
    limit := p.limit }

/-- A route result: a JSON body, or an error body with an HTTP status. -/
inductive ApiResult where
  | ok (body : QueryResponse)
  | err (message : String) (status : Nat)
deriving DecidableEq

/-- Is the result the error branch? -/
def isErrResult : ApiResult → Bool
  | .ok _ => false
  | .err _ _ => true

/-- Is the `Except` the error branch? -/
def exceptIsError {ε α : Type} : Except ε α → Bool
  | .error _ => true
  | .ok _ => false

/-- The whole `GET` handler: serve from the module-level cache when it is
set; otherwise read and transform the data file; the surrounding
`try`/`catch` turns a load failure into a 500 error response. -/
def GET (cache : Option (List EnrichedFeature))
    (file : Except String (List EnrichedFeature)) (p : QueryParams) : ApiResult :=
  match cache with
  | some data => .ok (runQuery data p)
  | none =>
    match file with
    | .ok raw => .ok (runQuery (loadAndTransformData raw) p)
    | .error _ => .err "Failed to load facilities" 500

/-- The bounds conjunct of the combined filter predicate (true when no
bounds were given). -/
def boundsOkB (p : QueryParams) (f : EnrichedFeature) : Bool :=
  match p.bounds with
  | some b =>
      Decimal.dle b.minLat f.latitude && Decimal.dle f.latitude b.maxLat &&
        Decimal.dle b.minLng f.longitude && Decimal.dle f.longitude b.maxLng
  | none => true

/-- The facility-type conjunct of the combined filter predicate. -/
def typeOkB (p : QueryParams) (f : EnrichedFeature) : Bool :=
  (typesOf p).contains (jsOrStr f.facility_type "rest_area")

/-- The search conjunct of the combined filter predicate (true when the
search string is empty). -/
def searchOkB (p : QueryParams) (f : EnrichedFeature) : Bool :=
  searchOf p == "" || searchMatches (searchOf p) f

end FacilitiesRoute

namespace NdwRoute

/-! Embedding of `app/api/ndw-parking/route.ts` (the NDW DATEX-II route):
`parseParkingTable` over the static parking table, `parseParkingStatus`
over the dynamic status document, and the `GET` handler that merges the
two. Records are modelled at the point after `extractText` /
`extractNumber` have run on the XML nodes the route reads; `none` models
a missing or unreadable node. -/

/-- One `groupOfParkingSpaces` entry: `parkingNumberOfSpaces` and the
vehicle-type code under `parkingSpaceBasics.parkingUsage.vehicleCharacteristics`. -/
structure GroupOfParkingSpaces where
  parkingNumberOfSpaces : Option Int
  vehicleType : Option String
deriving DecidableEq

/-- One `parkingRecord` element of the static table, restricted to the
fields the verified claims concern: the id and version attributes, the
name value, the resolved `pointCoordinates` pair, and the capacity
groups. The operator / address / pricing / security / access sub-trees
are pass-through data no claim mentions and are not modelled. -/
structure ParkingRecord where
  attrId : Option String
  attrVersion : Option Int
  parkingName : Option String
  latitude : Option Decimal
  longitude : Option Decimal
  groupOfParkingSpaces : List GroupOfParkingSpaces
deriving DecidableEq

/-- The `location` field of a parsed facility. -/
structure NdwLocation where
  latitude : Decimal
  longitude : Decimal
deriving DecidableEq

/-- The `capacity` field of a parsed facility: `totalSpaces` always
present, the three per-vehicle-type entries optional. -/
structure Capacity where
  totalSpaces : Int
  lorrySpaces : Option Int
  refrigeratedSpaces : Option Int
  heavyHaulSpaces : Option Int
deriving DecidableEq

/-- A parsed static facility (`NDWParkingFacility` in `lib/ndw-types.ts`),
restricted to the modelled fields. -/
structure NDWParkingFacility where
  id : String
  version : Int
  name : String
  location : NdwLocation
  capacity : Capacity
deriving DecidableEq

/-- One step of the capacity accumulation loop in `parseParkingTable`:
add the group's space count to the running total and, on an exact
vehicle-type match, to the matching per-type bucket. The accumulator is
`(totalSpaces, lorrySpaces, refrigeratedSpaces, heavyHaulSpaces)`. -/
def spacesStep (acc : Int × Int × Int × Int) (g : GroupOfParkingSpaces) : Int × Int × Int × Int :=
  let spaces := jsOrInt g.parkingNumberOfSpaces 0
  (acc.1 + spaces,
   if g.vehicleType == some "lorry" then acc.2.1 + spaces else acc.2.1,
   if g.vehicleType == some "refrigeratedGoods" then acc.2.2.1 + spaces else acc.2.2.1,
   if g.vehicleType == some "heavyHaul" then acc.2.2.2 + spaces else acc.2.2.2)

/-- The capacity accumulation loop (`groupsOfSpaces.forEach`). -/
def sumSpaces (groups : List GroupOfParkingSpaces) : Int × Int × Int × Int :=
  groups.foldl spacesStep (0, 0, 0, 0)

/-- The per-record body of `parseParkingTable`: defaults for id, version
and name, coordinates with the `|| 0` substitute, and the capacity
object with per-type entries present only when positive. -/
def parseRecord (record : ParkingRecord) : NDWParkingFacility :=
  let id := jsOrStr record.attrId ""
  let s := sumSpaces record.groupOfParkingSpaces
  { id := id
    version := jsOrInt record.attrVersion 1
    name := jsOrStr record.parkingName id
    location :=
      { latitude := jsOrDec record.latitude (Decimal.ofInt 0)
        longitude := jsOrDec record.longitude (Decimal.ofInt 0) }
    capacity :=
      { totalSpaces := s.1
        lorrySpaces := if 0 < s.2.1 then some s.2.1 else none
        refrigeratedSpaces := if 0 < s.2.2.1 then some s.2.2.1 else none
        heavyHaulSpaces := if 0 < s.2.2.2 then some s.2.2.2 else none } }

/-- `parseParkingTable` over the extracted `parkingRecord` list. -/
def parseParkingTable (records : List ParkingRecord) : List NDWParkingFacility :=
  records.map parseRecord

/-- One entry of a status record's `groupOfParkingSpacesStatus` list. -/
structure RawGroupStatus where
  attrGroupIndex : Option Int
  vacantSpaces : Option Int
  occupiedSpaces : Option Int
  occupancy : Option Int
deriving DecidableEq

/-- One parsed grouped-status entry. -/
structure GroupStatus where
  index : Int
  vacantSpaces : Int
  occupiedSpaces : Int
  occupancy : Int
deriving DecidableEq

/-- A parsed live status (`NDWParkingStatus` in `lib/ndw-types.ts`). -/
structure NDWParkingStatus where
  id : String
  vacantSpaces : Int
  occupiedSpaces : Int
  occupancy : Int
  status : String
  timestamp : String
  groupedStatus : Option (List GroupStatus)
deriving DecidableEq

/-- One `parkingRecordStatus` element of the dynamic document, after
extraction: the `parkingRecordReference` id attribute, the occupancy
numbers, the site status, the origin time, and the grouped entries. -/
structure StatusRecord where
  referenceId : Option String
  vacantSpaces : Option Int
  occupiedSpaces : Option Int
  occupancy : Option Int
  siteStatus : Option String
  originTime : Option String
  groups : List RawGroupStatus
deriving DecidableEq

/-- Does a status record carry a truthy `parkingRecordReference` id
(the `if (!id) return` guard of the status loop does not fire)? -/
def hasReferenceId (sr : StatusRecord) : Bool :=
  match sr.referenceId with
  | none => false
  | some id => id != ""

/-- JS `Map.prototype.set` on an insertion-ordered association list:
overwrite in place when the key exists, append otherwise. -/
def mapSet {β : Type} (m : List (String × β)) (k : String) (v : β) : List (String × β) :=
  if m.any (fun entry => entry.1 == k) then
    m.map (fun entry => if entry.1 == k then (k, v) else entry)
  else m ++ [(k, v)]

/-- JS `Map.prototype.get`. -/
def mapGet {β : Type} (m : List (String × β)) (k : String) : Option β :=
  (m.find? (fun entry => entry.1 == k)).map (fun entry => entry.2)

/-- The body of the `statusRecords.forEach` loop in `parseParkingStatus`:
skip the record when the reference id is falsy (`if (!id) return`),
otherwise build the status value keyed by that id. `now` is the
`new Date().toISOString()` fallback timestamp. -/
def parseStatusRecord (now : String) (sr : StatusRecord) : Option (String × NDWParkingStatus) :=
  match sr.referenceId with
  | none => none
  | some id =>
    if id = "" then none
    else
      let groupedStatus :=
        ((sr.groups.map (fun g =>
          { index := jsOrInt g.attrGroupIndex 0
            vacantSpaces := jsOrInt g.vacantSpaces 0
            occupiedSpaces := jsOrInt g.occupiedSpaces 0
            occupancy := jsOrInt g.occupancy 0 : GroupStatus })).filter
          (fun _ => true))
      some (id,
        { id := id
          vacantSpaces := jsOrInt sr.vacantSpaces 0
          occupiedSpaces := jsOrInt sr.occupiedSpaces 0
          occupancy := jsOrInt sr.occupancy 0
          status := jsOrStr sr.siteStatus "unknown"
          timestamp := jsOrStr sr.originTime now
          groupedStatus := if 0 < groupedStatus.length then some groupedStatus else none })

/-- `parseParkingStatus`: fold the status records into the id-keyed map. -/
def parseParkingStatus (now : String) (records : List StatusRecord) :
    List (String × NDWParkingStatus) :=
  records.foldl (fun m sr =>
    match parseStatusRecord now sr with
    | some kv => mapSet m kv.1 kv.2
    | none => m) []

/-- A facility spread together with its optional live status
(`NDWEnrichedFacility`). -/
structure NDWEnrichedFacility where
  facility : NDWParkingFacility
  liveStatus : Option NDWParkingStatus
deriving DecidableEq

/-- The route's JSON response body (`NDWDataResponse`). -/
structure NDWDataResponse where
  facilities : List NDWEnrichedFacility
  lastUpdated : String
  tableVersion : Int
  totalFacilities : Nat
deriving DecidableEq

/-- The merge step of the `GET` handler: look each facility's id up in
the status map. -/
def mergeLiveStatus (facilities : List NDWParkingFacility)
    (statusMap : List (String × NDWParkingStatus)) : List NDWEnrichedFacility :=
  facilities.map (fun facility => { facility := facility, liveStatus := mapGet statusMap facility.id })

/-- The `GET` handler after both XML documents were fetched and parsed:
extract facilities and status map, merge, and build the response.
`now` models `new Date().toISOString()`, `tableVersion` the result of
`extractTableVersion` (`none` when the version attribute is missing). -/
def GET (tableRecords : List ParkingRecord) (statusRecords : List StatusRecord)
    (now : String) (tableVersion : Option Int) : NDWDataResponse :=
  let facilities := parseParkingTable tableRecords
  let statusMap := parseParkingStatus now statusRecords
  let enrichedFacilities := mergeLiveStatus facilities statusMap
  { facilities := enrichedFacilities
    lastUpdated := now
    tableVersion := jsOrInt tableVersion 0
    totalFacilities := enrichedFacilities.length }

end NdwRoute

namespace ZenodoRoute

/-! Embedding of the Zenodo European truck-parking CSV route:
the `parseCSV` function with its header detection, hand-rolled
quoted-field splitter and per-row coordinate validation. JS `parseFloat`
is modelled for plain decimal literals (optional sign, digits, optional
fractional part, leading whitespace skipped, trailing garbage ignored);
exponents and `Infinity` do not occur in this dataset and are not
modelled. `none` models `NaN`. -/

/-- Numeric value of a decimal digit character. -/
def digitVal (c : Char) : Nat := c.toNat - '0'.toNat

/-- Split a character list into its leading digit run and the rest. -/
def takeDigits : List Char → List Nat × List Char
  | [] => ([], [])
  | c :: rest =>
    if c.isDigit then
      let p := takeDigits rest
      (digitVal c :: p.1, p.2)
    else ([], c :: rest)

/-- The natural number denoted by a digit-value list. -/
def natOfDigits (ds : List Nat) : Nat := ds.foldl (fun a d => a * 10 + d) 0

/-- Modelled JS `parseFloat` on a character list (see the namespace
comment for the modelled fragment). -/
def parseFloatChars (cs0 : List Char) : Option Decimal :=
  let cs1 := cs0.dropWhile Char.isWhitespace
  let signed : Int × List Char :=
    match cs1 with
    | '-' :: r => (-1, r)
    | '+' :: r => (1, r)
    | _ => (1, cs1)
  let ip := takeDigits signed.2
  match ip.2 with
  | '.' :: r =>
    let fp := takeDigits r
    if ip.1.isEmpty && fp.1.isEmpty then none
    else some ⟨signed.1 * (natOfDigits (ip.1 ++ fp.1) : Int), fp.1.length⟩
  | _ => if ip.1.isEmpty then none else some ⟨signed.1 * (natOfDigits ip.1 : Int), 0⟩

/-- Modelled JS `parseFloat` on a string. -/
def parseFloat (s : String) : Option Decimal := parseFloatChars s.toList

/-- The regex `replace(/^"|"$/g, '')` of `parseCSV`: remove one leading
and one trailing double-quote character. -/
def stripQuotes (s : String) : String :=
  let l1 : List Char :=
    match s.toList with
    | '"' :: rest => rest
    | other => other
  let l2 : List Char :=
    match l1.reverse with
    | '"' :: rest => rest.reverse
    | _ => l1
  String.mk l2

/-- The character loop of the hand-rolled field splitter: toggle on
`"`, split on `;` outside quotes, trim each pushed field. `current`
holds the pending field's characters in reverse. -/
def splitFieldsGo (inQuotes : Bool) (current : List Char) (acc : List String) :
    List Char → List String
  | [] => acc ++ [strTrim (String.mk current.reverse)]
  | c :: rest =>
    if c = '"' then splitFieldsGo (!inQuotes) current acc rest
    else if c = ';' && !inQuotes then
      splitFieldsGo inQuotes [] (acc ++ [strTrim (String.mk current.reverse)]) rest
    else splitFieldsGo inQuotes (c :: current) acc rest

/-- Split one data line into trimmed fields (semicolon delimiter,
quote-aware). -/
def splitFields (line : String) : List String := splitFieldsGo false [] [] line.toList

/-- The column indices found by fuzzy header matching (`findIndex` with
case-insensitive substring tests); `none` models `-1`. -/
structure HeaderIdx where
  latIndex : Option Nat
  lonIndex : Option Nat
  countryIndex : Option Nat
  categoryIndex : Option Nat
  areaIndex : Option Nat
  nameIndex : Option Nat
deriving DecidableEq

/-- Header detection of `parseCSV`. -/
def headerIdxOf (headers : List String) : HeaderIdx :=
  { latIndex := headers.findIdx? (fun h => strIncludes (strToLower h) "lat")
    lonIndex := headers.findIdx? (fun h => strIncludes (strToLower h) "lon")
    countryIndex := headers.findIdx? (fun h => strIncludes (strToLower h) "country")
    categoryIndex := headers.findIdx? (fun h =>
      strIncludes (strToLower h) "category" || strIncludes (strToLower h) "type")
    areaIndex := headers.findIdx? (fun h =>
      strIncludes (strToLower h) "area" || strIncludes (strToLower h) "size")
    nameIndex := headers.findIdx? (fun h =>
      strIncludes (strToLower h) "name" || strIncludes (strToLower h) "id") }

/-- The `location` field of a parsed Zenodo facility. -/
structure ZenodoLocation where
  latitude : Decimal
  longitude : Decimal
deriving DecidableEq

/-- A parsed Zenodo facility (`ZenodoFacility` in the route). -/
structure ZenodoFacility where
  id : String
  name : String
  category : String
  location : ZenodoLocation
  country : String
  area : Option Decimal
  source : String
deriving DecidableEq

/-- The coordinate extraction of one data row: the `lat`/`lon` fields at
the detected column indices, through `parseFloat`; `none` exactly when
the row fails the `lat === null || lon === null || isNaN(lat) || isNaN(lon)`
check of the source. An out-of-range field access (`fields[idx]` beyond
the row's length) is modelled as the empty string. -/
def rowCoords (h : HeaderIdx) (line : String) : Option (Decimal × Decimal) :=
  let fields := splitFields line
  let lat : Option Decimal :=
    match h.latIndex with
    | some idx => parseFloat (fields.getD idx "")
    | none => none
  let lon : Option Decimal :=
    match h.lonIndex with
    | some idx => parseFloat (fields.getD idx "")
    | none => none
  match lat, lon with
  | some latv, some lonv => some (latv, lonv)
  | _, _ => none

/-- The `idx >= 0 ? fields[idx].replace(...) : dflt` pattern of the
country / category / name extractions: when the detected column index
lies beyond the row's field count, `fields[idx]` is `undefined` and the
`.replace` call throws a TypeError that propagates out of `parseCSV`
(modelled as the `Except.error` branch). -/
def fieldAccess (fields : List String) (idx : Option Nat) (dflt : String) : Except String String :=
  match idx with
  | some i =>
    match fields[i]? with
    | some s => Except.ok (stripQuotes s)
    | none => Except.error "TypeError: fields[index] is undefined"
  | none => Except.ok dflt

/-- Does the `fields[idx].replace` access of `fieldAccess` succeed
(no column detected, or the row has a field at that index)? -/
def fieldOk (fields : List String) (idx : Option Nat) : Bool :=
  match idx with
  | some i => (fields[i]?).isSome
  | none => true

/-- The body of the row loop of `parseCSV` for the row with (1-based)
line index `i`: skip blank lines; drop the row when the latitude or
longitude does not parse (`continue`, which fires before any `.replace`
access); otherwise extract country, category, area and name in source
order — each of country / category / name can throw on a too-short row,
aborting the whole parse — and build the facility. The area extraction
uses `parseFloat(fields[areaIndex])`, which cannot throw:
`parseFloat(undefined)` is `NaN`, modelled (like all unparseable area
fields) as `none`. -/
def parseRow (h : HeaderIdx) (i : Nat) (rawLine : String) :
    Except String (Option ZenodoFacility) :=
  let line := strTrim rawLine
  if line = "" then Except.ok none
  else
    match rowCoords h line with
    | some coords =>
      let fields := splitFields line
      match fieldAccess fields h.countryIndex "Unknown" with
      | Except.error e => Except.error e
      | Except.ok country =>
        match fieldAccess fields h.categoryIndex "parking" with
        | Except.error e => Except.error e
        | Except.ok category =>
          let area : Option Decimal :=
            match h.areaIndex with
            | some idx => parseFloat (fields.getD idx "")
            | none => none
          match fieldAccess fields h.nameIndex (country ++ "-" ++ toString i) with
          | Except.error e => Except.error e
          | Except.ok name =>
            Except.ok (some
              { id := "zenodo-" ++ country ++ "-" ++ toString i
                name := jsOrStr (some name) ("Parking " ++ toString i)
                category := category
                location := { latitude := coords.1, longitude := coords.2 }
                country := country
                area := match area with
                  | some a => if a.m = 0 then none else some a
                  | none => none
                source := "Zenodo (Fraunhofer ISI)" })
    | none => Except.ok none

/-- The row loop of `parseCSV` from line index `i` on: a dropped row
(`ok none`) contributes nothing and the loop continues with the next
row; a thrown TypeError (`error`) aborts the loop, discarding every
facility collected so far (the exception propagates out of `parseCSV`
and is only caught in `GET`, which answers 500 with no adapter
output). -/
def parseRows (h : HeaderIdx) : Nat → List String → Except String (List ZenodoFacility)
  | _, [] => Except.ok []
  | i, l :: rest =>
    match parseRow h i l with
    | Except.error e => Except.error e
    | Except.ok none => parseRows h (i + 1) rest
    | Except.ok (some f) =>
      match parseRows h (i + 1) rest with
      | Except.error e => Except.error e
      | Except.ok fs => Except.ok (f :: fs)

/-- `parseCSV`: trim, split into lines, detect columns from the header
row, then run the row loop over the data rows; `error` models an
uncaught TypeError propagating out of the function. -/
def parseCSV (csvText : String) : Except String (List ZenodoFacility) :=
  let lines := strSplitOnChar '\n' (strTrim csvText)
  if lines.length = 0 then Except.ok []
  else
    let headers := (strSplitOnChar ';' (lines.headD "")).map (fun h => stripQuotes (strTrim h))
    parseRows (headerIdxOf headers) 1 (lines.drop 1)

/-- Does a data row survive the row loop (neither skipped nor
aborting): non-blank, coordinates parse, and every detected
country / category / name column access stays in range? -/
def rowKept (h : HeaderIdx) (l : String) : Bool :=
  !(strTrim l == "") && (rowCoords h (strTrim l)).isSome
    && fieldOk (splitFields (strTrim l)) h.countryIndex
    && fieldOk (splitFields (strTrim l)) h.categoryIndex
    && fieldOk (splitFields (strTrim l)) h.nameIndex

end ZenodoRoute

namespace Examples

/-! Concrete inputs used to instantiate the theorems below. -/

/-- A feature inside the example viewport `[52.0, 4.5, 52.5, 5.0]`:
latitude 52.2, longitude 4.8. -/
def exFeature : FacilitiesRoute.EnrichedFeature :=
  { name := "Truckstop Alpha"
    latitude := ⟨522, 1⟩
    longitude := ⟨48, 1⟩
    location := none
    classification := { is_truck_parking := true, is_rest_area := false, is_service_area := false }
    facility_type := some "truck_parking" }

/-- The viewport `[52.0, 4.5, 52.5, 5.0]` of the spec's scenario. -/
def exBounds : FacilitiesRoute.Bounds :=
  { minLat := ⟨52, 0⟩, minLng := ⟨45, 1⟩, maxLat := ⟨525, 1⟩, maxLng := ⟨5, 0⟩ }

/-- Query parameters: the example viewport, no `types`, no `search`,
the default `limit`/`offset`. -/
def exParams : FacilitiesRoute.QueryParams :=
  { bounds := some exBounds, typesParam := none, searchParam := none, limit := 1000, offset := 0 }

/-- The spec scenario's static record `"NL-12_421"` with
`groupOfParkingSpaces` entries `{lorry: 30}` and `{heavyHaul: 18}`. -/
def lorryHeavyRecord : NdwRoute.ParkingRecord :=
  { attrId := some "NL-12_421"
    attrVersion := some 3
    parkingName := some "Truckparking De Lucht"
    latitude := some ⟨520, 1⟩
    longitude := some ⟨51, 1⟩
    groupOfParkingSpaces :=
      [{ parkingNumberOfSpaces := some 30, vehicleType := some "lorry" },
       { parkingNumberOfSpaces := some 18, vehicleType := some "heavyHaul" }] }

/-- A static record whose single space group carries the unrecognized
vehicle-type code `"car"`. -/
def carRecord : NdwRoute.ParkingRecord :=
  { attrId := some "NL-77_1"
    attrVersion := some 1
    parkingName := some "Mixed lot"
    latitude := some ⟨52, 0⟩
    longitude := some ⟨5, 0⟩
    groupOfParkingSpaces := [{ parkingNumberOfSpaces := some 5, vehicleType := some "car" }] }

/-- A static record with no readable coordinates at all. -/
def noCoordRecord : NdwRoute.ParkingRecord :=
  { attrId := some "NL-88_2"
    attrVersion := some 1
    parkingName := some "No coordinates"
    latitude := none
    longitude := none
    groupOfParkingSpaces := [] }

/-- A static record with id `"NL-A"`. -/
def facilityRecordA : NdwRoute.ParkingRecord :=
  { attrId := some "NL-A"
    attrVersion := some 1
    parkingName := some "Facility A"
    latitude := some ⟨52, 0⟩
    longitude := some ⟨5, 0⟩
    groupOfParkingSpaces := [] }

/-- A dynamic status record whose reference id `"NL-B"` matches no
static facility in the examples. -/
def orphanStatus : NdwRoute.StatusRecord :=
  { referenceId := some "NL-B"
    vacantSpaces := some 10
    occupiedSpaces := some 2
    occupancy := some 17
    siteStatus := some "spacesAvailable"
    originTime := some "2025-01-01T00:00:00Z"
    groups := [] }

/-- The status value `parseParkingStatus` builds from `orphanStatus`. -/
def orphanParsedStatus : NdwRoute.NDWParkingStatus :=
  { id := "NL-B"
    vacantSpaces := 10
    occupiedSpaces := 2
    occupancy := 17
    status := "spacesAvailable"
    timestamp := "2025-01-01T00:00:00Z"
    groupedStatus := none }

/-- A CSV document with a header row and one well-formed data row. -/
def csvGood : String := "name;lat;lon\nA;52.0;4.5"

/-- The same CSV document with a trailing row whose latitude `"xx"`
does not parse. -/
def csvWithBad : String := "name;lat;lon\nA;52.0;4.5\nB;xx;4.5"

/-- A CSV document whose header detects a `country` column at index 2
while the single data row has only two fields — the row's coordinates
parse, and then `fields[2].replace` throws. -/
def csvRagged : String := "lat;lon;country\n1.0;2.0"

/-- The facility `parseCSV` builds from the data row of `csvGood`. -/
def goodFacility : ZenodoRoute.ZenodoFacility :=
  { id := "zenodo-Unknown-1"
    name := "A"
    category := "parking"
    location := { latitude := ⟨520, 1⟩, longitude := ⟨45, 1⟩ }
    country := "Unknown"
    area := none
    source := "Zenodo (Fraunhofer ISI)" }

end Examples

open FacilitiesRoute NdwRoute ZenodoRoute Examples

/-! Helper lemmas. -/

/-- The cross-multiplied comparison on `Decimal` agrees with `≤` on the
rational values. -/
theorem Decimal.dle_iff (a b : Decimal) : Decimal.dle a b = true ↔ a.toRat ≤ b.toRat := by
  unfold Decimal.dle Decimal.toRat
  rw [decide_eq_true_iff]
  rw [div_le_div_iff₀ (by positivity) (by positivity)]
  constructor
  · intro h
    exact_mod_cast h
  · intro h
    exact_mod_cast h

/-- `slice` returns a subset of its input list. -/
theorem jsSlice_subset {α : Type} (l : List α) (s e : Int) :
    ∀ a ∈ jsSlice l s e, a ∈ l := by
  intro a ha
  simp only [jsSlice] at ha
  exact List.mem_of_mem_take (List.mem_of_mem_drop ha)

/-- Two chained `filter`s fuse into one conjunction filter. -/
theorem filter_fuse {α : Type} (l : List α) (q r : α → Bool) :
    (l.filter q).filter r = l.filter (fun a => q a && r a) := by
  induction l with
  | nil => rfl
  | cons a t ih =>
    by_cases hq : q a <;> by_cases hr : r a <;>
      simp [List.filter_cons, hq, hr, ih]

/-- The three sequential filters of the handler equal one filter by the
conjunction of the three predicates. -/
theorem filteredData_eq (data0 : List EnrichedFeature) (p : QueryParams) :
    filteredData data0 p
      = data0.filter (fun f => boundsOkB p f && (typeOkB p f && searchOkB p f)) := by
  unfold filteredData
  by_cases hs : searchOf p = ""
  · have hsb : (searchOf p == "") = true := by simp [hs]
    cases hb : p.bounds with
    | none =>
      simp only [if_pos hs]
      refine (List.filter_congr ?_)
      intro f _
      simp [boundsOkB, typeOkB, searchOkB, hb, hsb]
    | some b =>
      simp only [if_pos hs]
      rw [filter_fuse]
      refine (List.filter_congr ?_)
      intro f _
      simp [boundsOkB, typeOkB, searchOkB, hb, hsb, Bool.and_assoc]
  · have hsb : (searchOf p == "") = false := by simp [hs]
    cases hb : p.bounds with
    | none =>
      simp only [if_neg hs]
      rw [filter_fuse]
      refine (List.filter_congr ?_)
      intro f _
      simp [boundsOkB, typeOkB, searchOkB, hb, hsb]
    | some b =>
      simp only [if_neg hs]
      rw [filter_fuse, filter_fuse]
      refine (List.filter_congr ?_)
      intro f _
      simp [boundsOkB, typeOkB, searchOkB, hb, hsb, Bool.and_assoc]

/-- `runQuery` only reads the parameters through the projections listed
here, so parameter records agreeing on them give equal responses. -/
theorem runQuery_params_congr (d : List EnrichedFeature) (p q : QueryParams)
    (hb : p.bounds = q.bounds) (ht : typesOf p = typesOf q) (hs : searchOf p = searchOf q)
    (hl : p.limit = q.limit) (ho : p.offset = q.offset) :
    runQuery d p = runQuery d q := by
  unfold runQuery filteredData
  rw [hb, ht, hs, hl, ho]

/-- The derived facility type is one of the three enum values. -/
theorem deriveFacilityType_mem (c : Classification) :
    deriveFacilityType c = "truck_parking" ∨ deriveFacilityType c = "service_area"
      ∨ deriveFacilityType c = "rest_area" := by
  rcases c with ⟨t, r, s⟩
  cases t <;> cases r <;> cases s <;> simp [deriveFacilityType]

/-! Claim theorems. -/

/-- C9: the derived `facility_type` follows the fixed precedence
`is_truck_parking` before `is_service_area`, and any feature with both
of those flags false (whatever `is_rest_area` is) gets `"rest_area"`;
the result is always one of exactly the three enum values. -/
theorem C9_facility_type_precedence (c : Classification) :
    deriveFacilityType c
        = (if c.is_truck_parking then "truck_parking"
           else if c.is_service_area then "service_area" else "rest_area")
      ∧ (deriveFacilityType c = "truck_parking" ∨ deriveFacilityType c = "service_area"
          ∨ deriveFacilityType c = "rest_area") := by
  refine ⟨?_, deriveFacilityType_mem c⟩
  rcases c with ⟨t, r, s⟩
  cases t <;> cases r <;> cases s <;> simp [deriveFacilityType]

/-- C8 counterexample: with no cached snapshot and a failing data-file
read, the handler returns a 500 error response, not an answer from an
existing (empty) snapshot — refuting "never returns a crashed or error
result to the client". -/
theorem C8_counterexample :
    FacilitiesRoute.GET none (Except.error "ENOENT: no such file or directory") exParams
      = ApiResult.err "Failed to load facilities" 500 := rfl

/-- C8 amended: the handler returns an error response exactly when the
cache is unset and the data-file read fails; whenever a snapshot exists
(cached, or freshly loaded, including an empty one) it answers with a
normal query response. -/
theorem C8_amended_error_iff_no_snapshot (cache : Option (List EnrichedFeature))
    (file : Except String (List EnrichedFeature)) (p : QueryParams) :
    isErrResult (FacilitiesRoute.GET cache file p) = (cache.isNone && exceptIsError file)
    ∧ FacilitiesRoute.GET (some []) file p = ApiResult.ok (runQuery [] p) := by
  refine ⟨?_, rfl⟩
  cases cache <;> cases file <;> rfl

/-- C3 counterexample: a static record with no readable coordinates is
not rejected with a `GeoValidationError`; it is emitted as a facility
with the substitute coordinates (0, 0). -/
theorem C3_counterexample :
    parseParkingTable [noCoordRecord]
      = [{ id := "NL-88_2", version := 1, name := "No coordinates",
           location := { latitude := ⟨0, 0⟩, longitude := ⟨0, 0⟩ },
           capacity := { totalSpaces := 0, lorrySpaces := none,
                         refrigeratedSpaces := none, heavyHaulSpaces := none } }] := by
  decide

/-- C3 amended: the static adapter never drops a record (the output has
one facility per input record, with no range validation anywhere), and a
record whose latitude or longitude is missing is emitted with the
substitute coordinate 0 rather than rejected. -/
theorem C3_amended_substitute_coordinates (records : List ParkingRecord)
    (record : ParkingRecord) :
    (parseParkingTable records).length = records.length
    ∧ (record.latitude = none → (parseRecord record).location.latitude = Decimal.ofInt 0)
    ∧ (record.longitude = none → (parseRecord record).location.longitude = Decimal.ofInt 0) := by
  refine ⟨by simp [parseParkingTable], ?_, ?_⟩ <;> intro h <;> simp [parseRecord, jsOrDec, h]

/-- C3 witness: the amended claim applied to the record with missing
coordinates. -/
theorem C3_witness : (parseRecord noCoordRecord).location.latitude = Decimal.ofInt 0 :=
  (C3_amended_substitute_coordinates [] noCoordRecord).2.1 rfl

/-- C2 counterexample: a `groupOfParkingSpaces` entry with the
unrecognized vehicle-type code `"car"` and 5 spaces is NOT accumulated
into the truck (`lorrySpaces`) bucket — the claim requires `{truck: 5}`
here, but the parsed capacity has `lorrySpaces = none` and only
`totalSpaces` carries the 5. -/
theorem C2_counterexample :
    parseParkingTable [carRecord]
      = [{ id := "NL-77_1", version := 1, name := "Mixed lot",
           location := { latitude := ⟨52, 0⟩, longitude := ⟨5, 0⟩ },
           capacity := { totalSpaces := 5, lorrySpaces := none,
                         refrigeratedSpaces := none, heavyHaulSpaces := none } }] := by
  decide

/-- C7: a per-vehicle-type capacity entry, when present, is always
positive — the parsed capacity never contains a `lorrySpaces`,
`refrigeratedSpaces` or `heavyHaulSpaces` entry with value zero (or
less); a zero or unknown count leaves the entry absent. -/
theorem C7_capacity_entries_positive (record : ParkingRecord) :
    (∀ n : Int, (parseRecord record).capacity.lorrySpaces = some n → 0 < n)
    ∧ (∀ n : Int, (parseRecord record).capacity.refrigeratedSpaces = some n → 0 < n)
    ∧ (∀ n : Int, (parseRecord record).capacity.heavyHaulSpaces = some n → 0 < n) := by
  refine ⟨?_, ?_, ?_⟩ <;> intro n h <;>
    simp only [parseRecord] at h <;> split at h <;> simp_all

/-- C7 witness: applied to the record whose lorry group has 30 spaces. -/
theorem C7_witness : (0 : Int) < 30 :=
  (C7_capacity_entries_positive lorryHeavyRecord).1 30 (by decide)

/-- The capacity accumulation loop computes, per component, the sum of
the space counts of the groups with the matching vehicle-type code (all
groups, for the total). -/
theorem sumSpaces_eq (groups : List GroupOfParkingSpaces) :
    sumSpaces groups =
      ((groups.map (fun g => jsOrInt g.parkingNumberOfSpaces 0)).sum,
       ((groups.filter (fun g => g.vehicleType == some "lorry")).map
          (fun g => jsOrInt g.parkingNumberOfSpaces 0)).sum,
       ((groups.filter (fun g => g.vehicleType == some "refrigeratedGoods")).map
          (fun g => jsOrInt g.parkingNumberOfSpaces 0)).sum,
       ((groups.filter (fun g => g.vehicleType == some "heavyHaul")).map
          (fun g => jsOrInt g.parkingNumberOfSpaces 0)).sum) := by
  have go : ∀ (gs : List GroupOfParkingSpaces) (acc : Int × Int × Int × Int),
      gs.foldl spacesStep acc
        = (acc.1 + (gs.map (fun g => jsOrInt g.parkingNumberOfSpaces 0)).sum,
           acc.2.1 + ((gs.filter (fun g => g.vehicleType == some "lorry")).map
              (fun g => jsOrInt g.parkingNumberOfSpaces 0)).sum,
           acc.2.2.1 + ((gs.filter (fun g => g.vehicleType == some "refrigeratedGoods")).map
              (fun g => jsOrInt g.parkingNumberOfSpaces 0)).sum,
           acc.2.2.2 + ((gs.filter (fun g => g.vehicleType == some "heavyHaul")).map
              (fun g => jsOrInt g.parkingNumberOfSpaces 0)).sum) := by
    intro gs
    induction gs with
    | nil => intro acc; simp
    | cons g t ih =>
      intro acc
      rw [List.foldl_cons, ih]
      simp only [spacesStep, List.map_cons, List.sum_cons, List.filter_cons]
      by_cases h1 : (g.vehicleType == some "lorry") <;>
        by_cases h2 : (g.vehicleType == some "refrigeratedGoods") <;>
          by_cases h3 : (g.vehicleType == some "heavyHaul") <;>
            simp [h1, h2, h3, Prod.ext_iff] <;> omega
  rw [sumSpaces, go]
  simp

/-- C2 amended: `groupOfParkingSpaces` entries are summed per recognized
vehicle-type code (`lorry`, `refrigeratedGoods`, `heavyHaul`); a code
outside that set contributes to `totalSpaces` only and to no per-type
bucket. The spec scenario record `"NL-12_421"` with `{lorry: 30}` and
`{heavyHaul: 18}` yields `lorrySpaces = 30` (truck) and
`heavyHaulSpaces = 18` (lzv). -/
theorem C2_amended_capacity_buckets :
    (∀ groups : List GroupOfParkingSpaces,
      sumSpaces groups =
        ((groups.map (fun g => jsOrInt g.parkingNumberOfSpaces 0)).sum,
         ((groups.filter (fun g => g.vehicleType == some "lorry")).map
            (fun g => jsOrInt g.parkingNumberOfSpaces 0)).sum,
         ((groups.filter (fun g => g.vehicleType == some "refrigeratedGoods")).map
            (fun g => jsOrInt g.parkingNumberOfSpaces 0)).sum,
         ((groups.filter (fun g => g.vehicleType == some "heavyHaul")).map
            (fun g => jsOrInt g.parkingNumberOfSpaces 0)).sum))
    ∧ (parseParkingTable [lorryHeavyRecord]).map (fun f => f.capacity)
        = [{ totalSpaces := 48, lorrySpaces := some 30,
             refrigeratedSpaces := none, heavyHaulSpaces := some 18 }] :=
  ⟨sumSpaces_eq, by decide⟩

/-- C4 counterexample: merging with a dynamic status record whose id
matches no facility produces a response identical to merging with no
dynamic records at all — the unmatched record is discarded on the spot,
with no pending map and nothing retained for a later pass. -/
theorem C4_counterexample :
    NdwRoute.GET [facilityRecordA] [orphanStatus] "2025-01-01T00:00:00Z" (some 1)
      = NdwRoute.GET [facilityRecordA] [] "2025-01-01T00:00:00Z" (some 1) := by
  decide

/-- Filtering a status map by a predicate that holds on every entry with
key `k` does not change the lookup at `k`. -/
theorem mapGet_filter_eq {β : Type} (m : List (String × β)) (pred : String × β → Bool)
    (k : String) (hk : ∀ entry : String × β, entry.1 = k → pred entry = true) :
    mapGet (m.filter pred) k = mapGet m k := by
  induction m with
  | nil => rfl
  | cons a t ih =>
    by_cases ha : (a.1 == k)
    · have hpa : pred a = true := hk a (by simpa using ha)
      simp [mapGet, List.filter_cons, hpa, List.find?_cons, ha]
    · cases hp : pred a
      · simpa [mapGet, List.filter_cons, hp, List.find?_cons, ha] using ih
      · simpa [mapGet, List.filter_cons, hp, List.find?_cons, ha] using ih

/-- C4 amended: the dynamic feed never creates facilities — the
response's facilities are exactly the parsed static facilities, in
order, whatever the status records are — and a status entry whose key
matches no facility id is simply discarded for the pass: dropping all
such entries leaves the merge unchanged. -/
theorem C4_amended_no_pending_map (tableRecords : List ParkingRecord)
    (statusRecords : List StatusRecord) (now : String) (v : Option Int) :
    ((NdwRoute.GET tableRecords statusRecords now v).facilities).map (fun e => e.facility)
        = parseParkingTable tableRecords
    ∧ (NdwRoute.GET tableRecords statusRecords now v).totalFacilities
        = tableRecords.length
    ∧ mergeLiveStatus (parseParkingTable tableRecords) (parseParkingStatus now statusRecords)
        = mergeLiveStatus (parseParkingTable tableRecords)
            ((parseParkingStatus now statusRecords).filter
              (fun entry => (parseParkingTable tableRecords).any (fun f => f.id == entry.1))) := by
  refine ⟨?_, ?_, ?_⟩
  · simp [NdwRoute.GET, mergeLiveStatus, List.map_map, Function.comp_def]
  · simp [NdwRoute.GET, mergeLiveStatus, parseParkingTable]
  · unfold mergeLiveStatus
    refine List.map_congr_left ?_
    intro f hf
    have : mapGet
        ((parseParkingStatus now statusRecords).filter
          (fun entry => (parseParkingTable tableRecords).any (fun g => g.id == entry.1)))
        f.id = mapGet (parseParkingStatus now statusRecords) f.id := by
      refine mapGet_filter_eq _ _ _ ?_
      intro entry he
      refine List.any_eq_true.mpr ⟨f, hf, ?_⟩
      simp [he]
    rw [this]

/-- A status entry produced from one record is keyed by the id stored in
its value. -/
theorem parseStatusRecord_key (now : String) (sr : StatusRecord)
    (kv : String × NDWParkingStatus) (h : parseStatusRecord now sr = some kv) :
    kv.1 = kv.2.id := by
  obtain ⟨rid, a1, a2, a3, a4, a5, gs⟩ := sr
  cases rid with
  | none => exact absurd h (by simp [parseStatusRecord])
  | some id =>
    by_cases hid : id = ""
    · exact absurd h (by simp [parseStatusRecord, hid])
    · simp only [parseStatusRecord, if_neg hid] at h
      injection h with h2
      subst h2
      rfl

/-- `Map.set` with an entry keyed by its value's id preserves the
key-equals-value-id invariant. -/
theorem mapSet_preserves_keys (m : List (String × NDWParkingStatus)) (k : String)
    (v : NDWParkingStatus) (hv : k = v.id) (hm : ∀ p ∈ m, p.1 = p.2.id) :
    ∀ p ∈ mapSet m k v, p.1 = p.2.id := by
  intro p hp
  unfold mapSet at hp
  by_cases hany : m.any (fun entry => entry.1 == k)
  · rw [if_pos hany] at hp
    obtain ⟨q, hq, hpq⟩ := List.mem_map.mp hp
    by_cases hqk : (q.1 == k)
    · rw [if_pos hqk] at hpq
      subst hpq
      simpa using hv
    · rw [if_neg hqk] at hpq
      subst hpq
      exact hm q hq
  · rw [if_neg hany] at hp
    rcases List.mem_append.mp hp with h | h
    · exact hm p h
    · have : p = (k, v) := by simpa using h
      subst this
      simpa using hv

/-- Every entry of the parsed status map is keyed by its value's id. -/
theorem parseParkingStatus_keys (now : String) (records : List StatusRecord) :
    ∀ p ∈ parseParkingStatus now records, p.1 = p.2.id := by
  unfold parseParkingStatus
  have go : ∀ (rs : List StatusRecord) (acc : List (String × NDWParkingStatus)),
      (∀ p ∈ acc, p.1 = p.2.id) →
      ∀ p ∈ rs.foldl (fun m sr =>
          match parseStatusRecord now sr with
          | some kv => mapSet m kv.1 kv.2
          | none => m) acc, p.1 = p.2.id := by
    intro rs
    induction rs with
    | nil => intro acc hacc; simpa using hacc
    | cons sr rest ih =>
      intro acc hacc
      rw [List.foldl_cons]
      cases hsr : parseStatusRecord now sr with
      | none => simp only [hsr]; exact ih acc hacc
      | some kv =>
        simp only [hsr]
        exact ih _ (mapSet_preserves_keys acc kv.1 kv.2 (parseStatusRecord_key now sr kv hsr) hacc)
  exact go records [] (by simp)

/-- A status record is skipped exactly when its reference id is falsy. -/
theorem parseStatusRecord_none_iff (now : String) (sr : StatusRecord) :
    parseStatusRecord now sr = none ↔ hasReferenceId sr = false := by
  unfold parseStatusRecord hasReferenceId
  cases sr.referenceId with
  | none => simp
  | some id => by_cases hid : id = "" <;> simp [hid]

/-- Records with a falsy reference id contribute nothing to the parsed
status map. -/
theorem parseParkingStatus_skips (now : String) (records : List StatusRecord) :
    parseParkingStatus now records
      = parseParkingStatus now (records.filter hasReferenceId) := by
  unfold parseParkingStatus
  have go : ∀ (rs : List StatusRecord) (acc : List (String × NDWParkingStatus)),
      rs.foldl (fun m sr =>
          match parseStatusRecord now sr with
          | some kv => mapSet m kv.1 kv.2
          | none => m) acc
        = (rs.filter hasReferenceId).foldl (fun m sr =>
            match parseStatusRecord now sr with
            | some kv => mapSet m kv.1 kv.2
            | none => m) acc := by
    intro rs
    induction rs with
    | nil => intro acc; rfl
    | cons sr rest ih =>
      intro acc
      cases hsr : parseStatusRecord now sr with
      | none =>
        have href : hasReferenceId sr = false := (parseStatusRecord_none_iff now sr).mp hsr
        simp [List.filter_cons, href, List.foldl_cons, hsr, ih]
      | some kv =>
        have href : hasReferenceId sr = true := by
          cases hh : hasReferenceId sr
          · rw [(parseStatusRecord_none_iff now sr).mpr hh] at hsr
            exact absurd hsr (by simp)
          · rfl
        simp [List.filter_cons, href, List.foldl_cons, hsr, ih]
  exact go records []

/-- C10: every entry of the parsed dynamic-status map has its key equal
to the `id` field of its value, and a status record lacking a
`parkingRecordReference` id produces no map entry at all — dropping all
such records leaves the parsed map unchanged (nothing is stored under a
default key). -/
theorem C10_status_map_well_keyed (now : String) (records : List StatusRecord) :
    (∀ p ∈ parseParkingStatus now records, p.1 = p.2.id)
    ∧ parseParkingStatus now records
        = parseParkingStatus now (records.filter hasReferenceId) :=
  ⟨parseParkingStatus_keys now records, parseParkingStatus_skips now records⟩

/-- C10 witness: the key invariant applied to the concrete entry parsed
from `orphanStatus`. -/
theorem C10_witness : ("NL-B", orphanParsedStatus).1 = ("NL-B", orphanParsedStatus).2.id :=
  (C10_status_map_well_keyed "T0" [orphanStatus]).1 ("NL-B", orphanParsedStatus) (by decide)

/-- C1: with viewport bounds given, every returned facility lies inside
the bounds rectangle (as rational coordinate values); the returned
`total` counts exactly the features that pass all three filters
(bounds, type, search) before pagination; and `total` does not depend
on `limit` or `offset`. -/
theorem C1_viewport_filter_and_total (data0 : List EnrichedFeature) (p : QueryParams)
    (b : Bounds) (hb : p.bounds = some b) :
    (∀ f ∈ (runQuery data0 p).facilities,
        b.minLat.toRat ≤ f.latitude.toRat ∧ f.latitude.toRat ≤ b.maxLat.toRat ∧
          b.minLng.toRat ≤ f.longitude.toRat ∧ f.longitude.toRat ≤ b.maxLng.toRat)
    ∧ (runQuery data0 p).total
        = data0.countP (fun f => boundsOkB p f && (typeOkB p f && searchOkB p f))
    ∧ (∀ lim off : Int,
        (runQuery data0 { p with limit := lim, offset := off }).total
          = (runQuery data0 p).total) := by
  refine ⟨?_, ?_, ?_⟩
  · intro f hf
    have hf3 : f ∈ filteredData data0 p := by
      have he : (runQuery data0 p).facilities
          = jsSlice (filteredData data0 p) p.offset (p.offset + p.limit) := rfl
      rw [he] at hf
      exact jsSlice_subset _ _ _ f hf
    rw [filteredData_eq] at hf3
    have hpred := List.of_mem_filter hf3
    have hbounds : boundsOkB p f = true := by
      simp only [Bool.and_eq_true] at hpred
      exact hpred.1
    simp only [boundsOkB, hb, Bool.and_eq_true] at hbounds
    obtain ⟨⟨⟨h1, h2⟩, h3⟩, h4⟩ := hbounds
    exact ⟨(Decimal.dle_iff _ _).mp h1, (Decimal.dle_iff _ _).mp h2,
      (Decimal.dle_iff _ _).mp h3, (Decimal.dle_iff _ _).mp h4⟩
  · have h0 : (runQuery data0 p).total = (filteredData data0 p).length := rfl
    rw [h0, filteredData_eq, ← List.countP_eq_length_filter]
  · intro lim off
    rfl

/-- C1 witness: the theorem applied to one in-viewport feature and the
spec's example bounds. -/
theorem C1_witness : (runQuery [exFeature] exParams).total = 1 := by
  have h := (C1_viewport_filter_and_total [exFeature] exParams exBounds rfl).2.1
  rw [h]
  decide

/-- C5: when no `types` parameter is given, the handler uses the full
three-type default list, so the type filter removes nothing from the
transformed data: `total` counts exactly the features passing the bounds
and search filters, and the whole response equals the response for the
explicit all-three-types parameter. -/
theorem C5_empty_types_means_all_types (raw : List EnrichedFeature) (p : QueryParams)
    (ht : p.typesParam = none) :
    (runQuery (loadAndTransformData raw) p).total
      = (loadAndTransformData raw).countP (fun f => boundsOkB p f && searchOkB p f)
    ∧ runQuery (loadAndTransformData raw) p
        = runQuery (loadAndTransformData raw)
            { p with typesParam := some "truck_parking,service_area,rest_area" } := by
  have hty : typesOf p = ["truck_parking", "service_area", "rest_area"] := by
    simp [typesOf, ht]
  constructor
  · have h0 : (runQuery (loadAndTransformData raw) p).total
        = (filteredData (loadAndTransformData raw) p).length := rfl
    rw [h0, filteredData_eq, ← List.countP_eq_length_filter]
    refine List.countP_congr ?_
    intro f hf
    obtain ⟨g, hg, rfl⟩ := List.mem_map.mp hf
    have hne : deriveFacilityType g.classification ≠ "" := by
      rcases deriveFacilityType_mem g.classification with h | h | h <;> rw [h] <;> simp
    have htype : typeOkB p (transformFeature g) = true := by
      simp only [typeOkB, hty, transformFeature, jsOrStr]
      rw [if_neg hne]
      rcases deriveFacilityType_mem g.classification with h | h | h <;> rw [h] <;> decide
    rw [htype]
    simp
  · refine runQuery_params_congr _ _ _ rfl ?_ rfl rfl rfl
    rw [hty]
    rfl

/-- C5 witness: the theorem applied to a one-feature list with the
`types` parameter absent. -/
theorem C5_witness : (runQuery (loadAndTransformData [exFeature]) exParams).total = 1 := by
  have h := (C5_empty_types_means_all_types [exFeature] exParams rfl).1
  rw [h]
  decide

/-- A successful `fieldAccess` means the detected column (if any) was in
range for this row. -/
theorem fieldOk_of_fieldAccess_ok (fields : List String) (idx : Option Nat) (d s : String)
    (h : fieldAccess fields idx d = Except.ok s) : fieldOk fields idx = true := by
  cases idx with
  | none => rfl
  | some i =>
    simp only [fieldAccess] at h
    simp only [fieldOk]
    cases hg : fields[i]? with
    | none => simp only [hg] at h; exact absurd h (by simp)
    | some t => simp [hg]

/-- A row whose coordinates do not parse is skipped (`continue`), never
an abort: the skip fires before any throwing `.replace` access. -/
theorem parseRow_skips_bad_coords (h : HeaderIdx) (i : Nat) (raw : String)
    (hc : rowCoords h (strTrim raw) = none) : parseRow h i raw = Except.ok none := by
  unfold parseRow
  by_cases hb : strTrim raw = ""
  · simp [hb]
  · simp [hb, hc]

/-- A skipped row fails the survival predicate. -/
theorem rowKept_of_parseRow_ok_none (h : HeaderIdx) (i : Nat) (l : String)
    (hp : parseRow h i l = Except.ok none) : rowKept h l = false := by
  unfold parseRow at hp
  by_cases hb : strTrim l = ""
  · simp [rowKept, hb]
  · simp only [if_neg hb] at hp
    cases hc : rowCoords h (strTrim l) with
    | none => simp [rowKept, hc]
    | some coords =>
      exfalso
      simp only [hc] at hp
      cases h1 : fieldAccess (splitFields (strTrim l)) h.countryIndex "Unknown" with
      | error e => simp only [h1] at hp; exact absurd hp (by simp)
      | ok country =>
        simp only [h1] at hp
        cases h2 : fieldAccess (splitFields (strTrim l)) h.categoryIndex "parking" with
        | error e => simp only [h2] at hp; exact absurd hp (by simp)
        | ok category =>
          simp only [h2] at hp
          cases h3 : fieldAccess (splitFields (strTrim l)) h.nameIndex
              (country ++ "-" ++ toString i) with
          | error e => simp only [h3] at hp; exact absurd hp (by simp)
          | ok name => simp only [h3] at hp; exact absurd hp (by simp)

/-- A row that produced a facility passes the survival predicate. -/
theorem rowKept_of_parseRow_ok_some (h : HeaderIdx) (i : Nat) (l : String)
    (f : ZenodoFacility) (hp : parseRow h i l = Except.ok (some f)) : rowKept h l = true := by
  unfold parseRow at hp
  by_cases hb : strTrim l = ""
  · rw [if_pos hb] at hp
    exact absurd hp (by simp)
  · simp only [if_neg hb] at hp
    cases hc : rowCoords h (strTrim l) with
    | none =>
      simp only [hc] at hp
      exact absurd hp (by simp)
    | some coords =>
      simp only [hc] at hp
      cases h1 : fieldAccess (splitFields (strTrim l)) h.countryIndex "Unknown" with
      | error e => simp only [h1] at hp; exact absurd hp (by simp)
      | ok country =>
        simp only [h1] at hp
        cases h2 : fieldAccess (splitFields (strTrim l)) h.categoryIndex "parking" with
        | error e => simp only [h2] at hp; exact absurd hp (by simp)
        | ok category =>
          simp only [h2] at hp
          cases h3 : fieldAccess (splitFields (strTrim l)) h.nameIndex
              (country ++ "-" ++ toString i) with
          | error e => simp only [h3] at hp; exact absurd hp (by simp)
          | ok name =>
            have k1 := fieldOk_of_fieldAccess_ok _ _ _ _ h1
            have k2 := fieldOk_of_fieldAccess_ok _ _ _ _ h2
            have k3 := fieldOk_of_fieldAccess_ok _ _ _ _ h3
            simp [rowKept, hb, hc, k1, k2, k3]

/-- C6 counterexample: appending a row with the unparseable latitude
`"xx"` leaves the adapter output bit-for-bit identical to the output
without that row — the row is excluded and parsing continues, but
nothing in the output records the error, so no error counter exists to
be incremented. And the original claim's "the parse never aborts on a
malformed row" is also false: on `csvRagged`, whose data row parses its
coordinates but is shorter than the detected country column, the
`fields[countryIndex].replace` TypeError aborts the entire parse. -/
theorem C6_counterexample :
    parseCSV csvWithBad = parseCSV csvGood
    ∧ parseCSV csvWithBad = Except.ok [goodFacility]
    ∧ parseCSV csvRagged = Except.error "TypeError: fields[index] is undefined" :=
  ⟨rfl, rfl, rfl⟩

/-- C6 amended: a CSV row whose latitude or longitude does not parse is
excluded from the adapter output by a plain `continue` — this skip can
never abort the parse, and the loop proceeds with the subsequent rows;
no error counter is maintained. When the row loop completes without a
thrown TypeError (a row whose coordinates parse but which is shorter
than a detected country / category / name column aborts the whole
parse), the output has exactly one facility per surviving row, wherever
the skipped rows sit in the input. -/
theorem C6_amended_bad_rows_skipped (h : HeaderIdx) (i : Nat) (rows : List String) :
    (∀ raw : String, rowCoords h (strTrim raw) = none → parseRow h i raw = Except.ok none)
    ∧ (∀ fs : List ZenodoFacility, parseRows h i rows = Except.ok fs
        → fs.length = rows.countP (rowKept h)) := by
  constructor
  · intro raw hc
    exact parseRow_skips_bad_coords h i raw hc
  · induction rows generalizing i with
    | nil =>
      intro fs hfs
      simp only [parseRows] at hfs
      injection hfs with hfs
      subst hfs
      rfl
    | cons l rest ih =>
      intro fs hfs
      simp only [parseRows] at hfs
      cases hp : parseRow h i l with
      | error e =>
        simp only [hp] at hfs
        exact absurd hfs (by simp)
      | ok of =>
        cases of with
        | none =>
          simp only [hp] at hfs
          have hv := rowKept_of_parseRow_ok_none h i l hp
          simpa [List.countP_cons, hv] using ih (i + 1) fs hfs
        | some f =>
          simp only [hp] at hfs
          cases hrest : parseRows h (i + 1) rest with
          | error e =>
            simp only [hrest] at hfs
            exact absurd hfs (by simp)
          | ok fs2 =>
            simp only [hrest] at hfs
            injection hfs with hfs
            subst hfs
            have hv := rowKept_of_parseRow_ok_some h i l f hp
            have hr := ih (i + 1) fs2 hrest
            simp [List.countP_cons, hv, hr]

/-- C6 witness: the amended count applied to the header of `csvGood` and
the two data rows of `csvWithBad` — the bad row is skipped, the good row
survives. -/
theorem C6_witness :
    ([goodFacility].length : Nat)
      = ["A;52.0;4.5", "B;xx;4.5"].countP (rowKept (headerIdxOf ["name", "lat", "lon"])) :=
  (C6_amended_bad_rows_skipped (headerIdxOf ["name", "lat", "lon"]) 1
      ["A;52.0;4.5", "B;xx;4.5"]).2 [goodFacility] rfl
